import Mathlib

/-!
# PKCE authorization-code flow of `src/index.js`

A shallow embedding of the Express application in `src/index.js`: the PKCE
credential generator (`generateCodeVerifier`, `generateCodeChallenge`), the
four route handlers that touch the session (`/auth`, `/auth/callback`,
`/profile`, `/logout`) and the root page.

The platform functions the source calls are embedded by what they compute:

* `crypto.createHash('sha256')` is FIPS 180-4 SHA-256 over lists of bytes,
* `Buffer.toString('hex')` and `digest('base64url')` are Node's encoders,
* `querystring.stringify` / `querystring.escape` are Node's `querystring`,
* `axios.get` / `axios.post` are given by their outcome (`HttpOutcome`),
* `crypto.randomBytes(32)` is given by the bytes it returns.

Bytes and 32-bit words are natural numbers; every 32-bit operation reduces
modulo `2^32` explicitly.
-/

namespace EntraOAuth

/-! ## Bytes of a string -/

/-- UTF-8 bytes of one character: what `hash.update(string)` feeds the hash
for each code point of a well-formed string. -/
def utf8EncodeChar (c : Char) : List Nat :=
  let v := c.toNat
  if v < 0x80 then [v]
  else if v < 0x800 then [0xC0 + v / 64, 0x80 + v % 64]
  else if v < 0x10000 then [0xE0 + v / 4096, 0x80 + v / 64 % 64, 0x80 + v % 64]
  else [0xF0 + v / 262144, 0x80 + v / 4096 % 64, 0x80 + v / 64 % 64, 0x80 + v % 64]

/-- UTF-8 bytes of a string. -/
def utf8Bytes (s : String) : List Nat :=
  s.data.flatMap utf8EncodeChar

/-! ## Hex encoding (`Buffer.prototype.toString('hex')`) -/

/-- Lower-case hex digits, the table `toString('hex')` indexes. -/
def hexLowerTable : List Char :=
  ['0', '1', '2', '3', '4', '5', '6', '7', '8', '9', 'a', 'b', 'c', 'd', 'e', 'f']

/-- Digit of a nibble; `'?'` is never produced for a nibble below 16. -/
def hexLower (n : Nat) : Char :=
  hexLowerTable.getD n '?'

/-- Two hex digits of one byte: high nibble `b >> 4`, then low nibble `b & 15`. -/
def hexOfByte (b : Nat) : List Char :=
  [hexLower (b / 16), hexLower (b % 16)]

/-- Hex text of a buffer. -/
def hexEncode (bytes : List Nat) : List Char :=
  bytes.flatMap hexOfByte

/-! ## Base64url encoding (`digest('base64url')`) -/

/-- The URL-safe base64 alphabet of RFC 4648 §5. -/
def base64urlTable : List Char :=
  ['A', 'B', 'C', 'D', 'E', 'F', 'G', 'H', 'I', 'J', 'K', 'L', 'M',
   'N', 'O', 'P', 'Q', 'R', 'S', 'T', 'U', 'V', 'W', 'X', 'Y', 'Z',
   'a', 'b', 'c', 'd', 'e', 'f', 'g', 'h', 'i', 'j', 'k', 'l', 'm',
   'n', 'o', 'p', 'q', 'r', 's', 't', 'u', 'v', 'w', 'x', 'y', 'z',
   '0', '1', '2', '3', '4', '5', '6', '7', '8', '9', '-', '_']

/-- The standard base64 alphabet of RFC 4648 §4. -/
def base64Table : List Char :=
  ['A', 'B', 'C', 'D', 'E', 'F', 'G', 'H', 'I', 'J', 'K', 'L', 'M',
   'N', 'O', 'P', 'Q', 'R', 'S', 'T', 'U', 'V', 'W', 'X', 'Y', 'Z',
   'a', 'b', 'c', 'd', 'e', 'f', 'g', 'h', 'i', 'j', 'k', 'l', 'm',
   'n', 'o', 'p', 'q', 'r', 's', 't', 'u', 'v', 'w', 'x', 'y', 'z',
   '0', '1', '2', '3', '4', '5', '6', '7', '8', '9', '+', '/']

/-- Character of a sextet in the URL-safe alphabet. -/
def base64urlChar (n : Nat) : Char :=
  base64urlTable.getD n '?'

/-- Node's `base64url` encoder: three bytes give four characters, a tail of
two bytes gives three, a tail of one byte gives two, and no `=` is appended. -/
def base64urlEncode : List Nat → List Char
  | a :: b :: c :: rest =>
      base64urlChar (a / 4) :: base64urlChar (a % 4 * 16 + b / 16) ::
        base64urlChar (b % 16 * 4 + c / 64) :: base64urlChar (c % 64) ::
        base64urlEncode rest
  | [a, b] =>
      [base64urlChar (a / 4), base64urlChar (a % 4 * 16 + b / 16),
       base64urlChar (b % 16 * 4)]
  | [a] => [base64urlChar (a / 4), base64urlChar (a % 4 * 16)]
  | [] => []

/-! ## SHA-256 (`crypto.createHash('sha256')`) -/

/-- Addition modulo `2^32`. -/
def add32 (a b : Nat) : Nat := (a + b) % 4294967296

/-- Rotate a 32-bit word right by `n` bits. -/
def rotr32 (x n : Nat) : Nat :=
  ((x >>> n) ||| (x <<< (32 - n))) % 4294967296

/-- Bitwise complement of a 32-bit word. -/
def not32 (x : Nat) : Nat := x ^^^ 4294967295

/-- The choice function `Ch`. -/
def ch32 (x y z : Nat) : Nat := (x &&& y) ^^^ (not32 x &&& z)

/-- The majority function `Maj`. -/
def maj32 (x y z : Nat) : Nat := (x &&& y) ^^^ (x &&& z) ^^^ (y &&& z)

/-- Big sigma 0. -/
def bigSigma0 (x : Nat) : Nat := rotr32 x 2 ^^^ rotr32 x 13 ^^^ rotr32 x 22

/-- Big sigma 1. -/
def bigSigma1 (x : Nat) : Nat := rotr32 x 6 ^^^ rotr32 x 11 ^^^ rotr32 x 25

/-- Small sigma 0. -/
def smallSigma0 (x : Nat) : Nat := rotr32 x 7 ^^^ rotr32 x 18 ^^^ (x >>> 3)

/-- Small sigma 1. -/
def smallSigma1 (x : Nat) : Nat := rotr32 x 17 ^^^ rotr32 x 19 ^^^ (x >>> 10)

/-- The 64 round constants. -/
def sha256K : List Nat :=
  [0x428a2f98, 0x71374491, 0xb5c0fbcf, 0xe9b5dba5, 0x3956c25b, 0x59f111f1, 0x923f82a4, 0xab1c5ed5,
   0xd807aa98, 0x12835b01, 0x243185be, 0x550c7dc3, 0x72be5d74, 0x80deb1fe, 0x9bdc06a7, 0xc19bf174,
   0xe49b69c1, 0xefbe4786, 0x0fc19dc6, 0x240ca1cc, 0x2de92c6f, 0x4a7484aa, 0x5cb0a9dc, 0x76f988da,
   0x983e5152, 0xa831c66d, 0xb00327c8, 0xbf597fc7, 0xc6e00bf3, 0xd5a79147, 0x06ca6351, 0x14292967,
   0x27b70a85, 0x2e1b2138, 0x4d2c6dfc, 0x53380d13, 0x650a7354, 0x766a0abb, 0x81c2c92e, 0x92722c85,
   0xa2bfe8a1, 0xa81a664b, 0xc24b8b70, 0xc76c51a3, 0xd192e819, 0xd6990624, 0xf40e3585, 0x106aa070,
   0x19a4c116, 0x1e376c08, 0x2748774c, 0x34b0bcb5, 0x391c0cb3, 0x4ed8aa4a, 0x5b9cca4f, 0x682e6ff3,
   0x748f82ee, 0x78a5636f, 0x84c87814, 0x8cc70208, 0x90befffa, 0xa4506ceb, 0xbef9a3f7, 0xc67178f2]

/-- The eight working variables, also the running hash value. -/
structure HashState where
  a : Nat
  b : Nat
  c : Nat
  d : Nat
  e : Nat
  f : Nat
  g : Nat
  h : Nat

/-- The initial hash value. -/
def sha256Init : HashState :=
  { a := 0x6a09e667, b := 0xbb67ae85, c := 0x3c6ef372, d := 0xa54ff53a,
    e := 0x510e527f, f := 0x9b05688c, g := 0x1f83d9ab, h := 0x5be0cd19 }

/-- Padding: the byte `0x80`, zero bytes up to 56 modulo 64, then the
message length in bits as a 64-bit big-endian integer. -/
def sha256Pad (msg : List Nat) : List Nat :=
  let bits := 8 * msg.length
  msg ++ [0x80] ++ List.replicate ((119 - msg.length % 64) % 64) 0 ++
    [bits / 72057594037927936 % 256, bits / 281474976710656 % 256,
     bits / 1099511627776 % 256, bits / 4294967296 % 256,
     bits / 16777216 % 256, bits / 65536 % 256, bits / 256 % 256, bits % 256]

/-- The sixteen big-endian words of a 64-byte block. -/
def blockWords (block : List Nat) : List Nat :=
  (List.range 16).map fun i =>
    block.getD (4 * i) 0 * 16777216 + block.getD (4 * i + 1) 0 * 65536 +
      block.getD (4 * i + 2) 0 * 256 + block.getD (4 * i + 3) 0

/-- Extend the message schedule by `n` more words. -/
def extendSchedule : Nat → List Nat → List Nat
  | 0, w => w
  | n + 1, w =>
      let i := w.length
      extendSchedule n
        (w ++ [add32 (add32 (smallSigma1 (w.getD (i - 2) 0)) (w.getD (i - 7) 0))
                 (add32 (smallSigma0 (w.getD (i - 15) 0)) (w.getD (i - 16) 0))])

/-- One round of the compression function with constant `kw.1` and schedule
word `kw.2`. -/
def sha256Round (s : HashState) (kw : Nat × Nat) : HashState :=
  let t1 := add32 (add32 (add32 (add32 s.h (bigSigma1 s.e)) (ch32 s.e s.f s.g)) kw.1) kw.2
  let t2 := add32 (bigSigma0 s.a) (maj32 s.a s.b s.c)
  { a := add32 t1 t2, b := s.a, c := s.b, d := s.c,
    e := add32 s.d t1, f := s.e, g := s.f, h := s.g }

/-- Compression of one 64-byte block into the running hash value. -/
def sha256Compress (s : HashState) (block : List Nat) : HashState :=
  let r := (sha256K.zip (extendSchedule 48 (blockWords block))).foldl sha256Round s
  { a := add32 s.a r.a, b := add32 s.b r.b, c := add32 s.c r.c, d := add32 s.d r.d,
    e := add32 s.e r.e, f := add32 s.f r.f, g := add32 s.g r.g, h := add32 s.h r.h }

/-- The 64-byte blocks of a padded message. -/
def sha256Blocks (padded : List Nat) : List (List Nat) :=
  (List.range (padded.length / 64)).map fun i => (padded.drop (64 * i)).take 64

/-- Four big-endian bytes of a 32-bit word. -/
def wordBytes (w : Nat) : List Nat :=
  [w / 16777216 % 256, w / 65536 % 256, w / 256 % 256, w % 256]

/-- The 32 bytes of a hash value. -/
def digestBytes (s : HashState) : List Nat :=
  wordBytes s.a ++ wordBytes s.b ++ wordBytes s.c ++ wordBytes s.d ++
    wordBytes s.e ++ wordBytes s.f ++ wordBytes s.g ++ wordBytes s.h

/-- SHA-256 digest of a byte string. -/
def sha256 (msg : List Nat) : List Nat :=
  digestBytes ((sha256Blocks (sha256Pad msg)).foldl sha256Compress sha256Init)

/-! ## The credential generator (`src/index.js`, lines 29-35) -/

/-- The source's `generateCodeVerifier`, as a function of the buffer that
`crypto.randomBytes(32)` returns: its hex text. -/
def generateCodeVerifier (randomBytes : List Nat) : String :=
  String.mk (hexEncode randomBytes)

/-- The source's `generateCodeChallenge`:
`crypto.createHash('sha256').update(codeVerifier).digest('base64url')`. -/
def generateCodeChallenge (codeVerifier : String) : String :=
  String.mk (base64urlEncode (sha256 (utf8Bytes codeVerifier)))

/-! ## The reference S256 transform

The transform as the PKCE specification words it: standard padded base64 of
the digest, made URL-safe, with the padding removed. It is compared with
`generateCodeChallenge` below. -/

/-- Character of a sextet in the standard alphabet. -/
def base64Char (n : Nat) : Char :=
  base64Table.getD n '?'

/-- Standard base64 with `=` padding (RFC 4648 §4). -/
def base64PaddedEncode : List Nat → List Char
  | a :: b :: c :: rest =>
      base64Char (a / 4) :: base64Char (a % 4 * 16 + b / 16) ::
        base64Char (b % 16 * 4 + c / 64) :: base64Char (c % 64) ::
        base64PaddedEncode rest
  | [a, b] =>
      [base64Char (a / 4), base64Char (a % 4 * 16 + b / 16), base64Char (b % 16 * 4), '=']
  | [a] => [base64Char (a / 4), base64Char (a % 4 * 16), '=', '=']
  | [] => []

/-- The URL-safe substitute of a standard base64 character. -/
def toUrlSafe (c : Char) : Char :=
  if c = '+' then '-' else if c = '/' then '_' else c

/-- Reference PKCE S256 of RFC 7636, base64url without padding of the SHA-256
digest of the verifier's bytes, computed as padded base64, translated to the URL-safe alphabet, padding
stripped. -/
def pkceS256Reference (verifier : String) : String :=
  String.mk (((base64PaddedEncode (sha256 (utf8Bytes verifier))).map toUrlSafe).filter
    fun c => c != '=')

/-- The characters a base64url text may hold: `A-Z`, `a-z`, `0-9`, `-`, `_`. -/
def isBase64urlChar (c : Char) : Bool :=
  c.isUpper || c.isLower || c.isDigit || c == '-' || c == '_'

/-- The characters a lower-case hex text may hold: `0-9`, `a-f`. -/
def isHexChar (c : Char) : Bool :=
  c.isDigit || (97 ≤ c.toNat && c.toNat ≤ 102)

/-! ## Node's `querystring` -/

/-- Upper-case hex digits, as in Node's `hexTable` of `%XX` escapes. -/
def hexUpperTable : List Char :=
  ['0', '1', '2', '3', '4', '5', '6', '7', '8', '9', 'A', 'B', 'C', 'D', 'E', 'F']

/-- Upper-case digit of a nibble. -/
def hexUpper (n : Nat) : Char :=
  hexUpperTable.getD n '?'

/-- The escape `%XX` of one byte. -/
def percentByte (b : Nat) : List Char :=
  ['%', hexUpper (b / 16), hexUpper (b % 16)]

/-- Node's `noEscape` table of `querystring`: entry 1 for the ASCII
characters left as they are (`! ' ( ) * - . _ ~`, digits and letters); the
32 control characters come first, all escaped. -/
def noEscapeTable : List Nat :=
  List.replicate 32 0 ++
  [0, 1, 0, 0, 0, 0, 0, 1, 1, 1, 1, 0, 0, 1, 1, 0,
   1, 1, 1, 1, 1, 1, 1, 1, 1, 1, 0, 0, 0, 0, 0, 0,
   0, 1, 1, 1, 1, 1, 1, 1, 1, 1, 1, 1, 1, 1, 1, 1,
   1, 1, 1, 1, 1, 1, 1, 1, 1, 1, 1, 0, 0, 0, 0, 1,
   0, 1, 1, 1, 1, 1, 1, 1, 1, 1, 1, 1, 1, 1, 1, 1,
   1, 1, 1, 1, 1, 1, 1, 1, 1, 1, 1, 0, 0, 0, 1, 0]

/-- Escape of one character: an ASCII character of the `noEscape` table is
kept, every other character becomes the `%XX` escapes of its UTF-8 bytes. -/
def qsEscapeChar (c : Char) : List Char :=
  if c.toNat < 0x80 then
    if noEscapeTable.getD c.toNat 0 = 1 then [c] else percentByte c.toNat
  else (utf8EncodeChar c).flatMap percentByte

/-- Node's `querystring.escape` on a well-formed string. -/
def qsEscape (s : String) : String :=
  String.mk (s.data.flatMap qsEscapeChar)

/-- Node's `encodeStringified` for the values the handlers pass: a string is
escaped, `undefined` gives the empty string. -/
def encodeStringified : Option String → String
  | some s => qsEscape s
  | none => ""

/-- One `key=value` field of `querystring.stringify`. -/
def qsField (kv : String × Option String) : String :=
  qsEscape kv.1 ++ "=" ++ encodeStringified kv.2

/-- The loop of `querystring.stringify`: each field is appended, followed by
the separator `&` unless it is the last. -/
def joinFields : List String → String
  | [] => ""
  | [f] => f
  | f :: fs => f ++ "&" ++ joinFields fs

/-- Node's `querystring.stringify` on an object whose properties, in
insertion order, are `obj`. -/
def qsStringify (obj : List (String × Option String)) : String :=
  joinFields (obj.map qsField)

/-- What a template literal substitutes for a string-or-undefined value. -/
def templateString : Option String → String
  | some s => s
  | none => "undefined"

/-! ## The receiver's view of a query string -/

/-- Split a text at every occurrence of `sep`. -/
def splitOnChar (sep : Char) : List Char → List (List Char)
  | [] => [[]]
  | c :: cs =>
      if c = sep then [] :: splitOnChar sep cs
      else
        match splitOnChar sep cs with
        | [] => [[c]]
        | p :: ps => (c :: p) :: ps

/-- Split a field at its first `=` into name and raw value. -/
def splitField : List Char → String × String
  | [] => ("", "")
  | c :: cs =>
      if c = '=' then ("", String.mk cs)
      else ((String.mk [c]) ++ (splitField cs).1, (splitField cs).2)

/-- The fields of a query string as a receiver separates them: split at
`&`, each field split at its first `=`; the values are still escaped. -/
def queryFields (query : String) : List (String × String) :=
  (splitOnChar '&' query.data).map splitField

/-! ## JavaScript values held by the session and returned by axios -/

/-- A JSON number as the handlers can observe it: whether it is zero (`0`
and `-0` are the falsy numbers a JSON body can give) and the text that
`ToString` and `JSON.stringify` give for it. -/
structure JsNum where
  isZero : Bool
  text : String
  deriving DecidableEq, Repr

/-- A value of `response.data`: the parsed JSON body, or the body text itself
(`str`) when the body is not JSON. The fields of `obj` are the own properties
in enumeration order. -/
inductive JsVal where
  | null
  | bool (b : Bool)
  | num (n : JsNum)
  | str (s : String)
  | arr (items : List JsVal)
  | obj (fields : List (String × JsVal))
  deriving Repr

/-- JavaScript truthiness, the test of `!req.session.tokenSet`. -/
def JsVal.truthy : JsVal → Bool
  | .null => false
  | .bool b => b
  | .num n => !n.isZero
  | .str s => s != ""
  | .arr _ => true
  | .obj _ => true

/-- The property read of `const { access_token } = tokenSet` on a truthy
value: the own property of an object, `undefined` (`none`) for an object
without it and for strings, numbers, booleans and arrays. -/
def JsVal.accessToken : JsVal → Option JsVal
  | .obj fields => fields.lookup "access_token"
  | _ => none

mutual
/-- `ToString` of a value, as a template literal applies it. -/
def JsVal.toText : JsVal → String
  | .null => "null"
  | .bool true => "true"
  | .bool false => "false"
  | .num n => n.text
  | .str s => s
  | .arr items => JsVal.joinText items
  | .obj _ => "[object Object]"
/-- `Array.prototype.join` with the separator `,`: `null` elements give the
empty string. -/
def JsVal.joinText : List JsVal → String
  | [] => ""
  | [.null] => ""
  | [x] => JsVal.toText x
  | .null :: xs => "," ++ JsVal.joinText xs
  | x :: xs => JsVal.toText x ++ "," ++ JsVal.joinText xs
end

/-- What the template literal of the `Authorization` header substitutes for
`access_token`. -/
def templateValue : Option JsVal → String
  | some v => v.toText
  | none => "undefined"

/-- Four lower-case hex digits, for a `\uXXXX` escape. -/
def hex4 (n : Nat) : List Char :=
  [hexLower (n / 4096 % 16), hexLower (n / 256 % 16), hexLower (n / 16 % 16), hexLower (n % 16)]

/-- `QuoteJSONString` for one character of a well-formed string. -/
def jsonQuoteChar (c : Char) : List Char :=
  if c.toNat = 8 then [Char.ofNat 92, 'b']
  else if c.toNat = 9 then [Char.ofNat 92, 't']
  else if c.toNat = 10 then [Char.ofNat 92, 'n']
  else if c.toNat = 12 then [Char.ofNat 92, 'f']
  else if c.toNat = 13 then [Char.ofNat 92, 'r']
  else if c.toNat = 34 then [Char.ofNat 92, Char.ofNat 34]
  else if c.toNat = 92 then [Char.ofNat 92, Char.ofNat 92]
  else if c.toNat < 32 then Char.ofNat 92 :: 'u' :: hex4 c.toNat
  else [c]

/-- `QuoteJSONString`. -/
def jsonQuote (s : String) : String :=
  String.mk (Char.ofNat 34 :: (s.data.flatMap jsonQuoteChar ++ [Char.ofNat 34]))

mutual
/-- `JSON.stringify(value, null, 2)` at the current indentation `indent`. -/
def JsVal.stringify (indent : String) : JsVal → String
  | .null => "null"
  | .bool true => "true"
  | .bool false => "false"
  | .num n => n.text
  | .str s => jsonQuote s
  | .arr [] => "[]"
  | .arr (x :: xs) =>
      "[\n" ++ indent ++ "  " ++ JsVal.stringifyItems (indent ++ "  ") (x :: xs) ++
        "\n" ++ indent ++ "]"
  | .obj [] => "\x7b\x7d"
  | .obj (kv :: kvs) =>
      "\x7b\n" ++ indent ++ "  " ++ JsVal.stringifyFields (indent ++ "  ") (kv :: kvs) ++
        "\n" ++ indent ++ "\x7d"
/-- The elements of an array, separated by a comma and a new line. -/
def JsVal.stringifyItems (indent : String) : List JsVal → String
  | [] => ""
  | [x] => JsVal.stringify indent x
  | x :: xs => JsVal.stringify indent x ++ ",\n" ++ indent ++ JsVal.stringifyItems indent xs
/-- The properties of an object, separated by a comma and a new line. -/
def JsVal.stringifyFields (indent : String) : List (String × JsVal) → String
  | [] => ""
  | [(k, v)] => jsonQuote k ++ ": " ++ JsVal.stringify indent v
  | (k, v) :: kvs =>
      jsonQuote k ++ ": " ++ JsVal.stringify indent v ++ ",\n" ++ indent ++
        JsVal.stringifyFields indent kvs
end

/-! ## Configuration, session, effects -/

/-- The environment variables the configuration reads; an unset variable is
`undefined` (`none`). -/
structure Env where
  CLIENT_ID : Option String
  CLIENT_SECRET_VALUE : Option String
  TENANT_ID : Option String
  REDIRECT_URI : Option String

/-- The `config` object of the source (lines 12-19). -/
structure Config where
  clientId : Option String
  clientSecret : Option String
  tenantId : Option String
  redirectUri : Option String
  authority : String
  scope : String

/-- The `config` object as the source builds it from the environment. -/
def config (env : Env) : Config :=
  { clientId := env.CLIENT_ID
    clientSecret := env.CLIENT_SECRET_VALUE
    tenantId := env.TENANT_ID
    redirectUri := env.REDIRECT_URI
    authority := "https://login.microsoft.com"
    scope := "User.Read" }

/-- The two properties of `req.session` the handlers use; `none` is an unset
property. -/
structure Session where
  codeVerifier : Option String
  tokenSet : Option JsVal

/-- The session of a browser the store holds nothing for. -/
def Session.fresh : Session :=
  { codeVerifier := none, tokenSet := none }

/-- An outbound call handed to axios. -/
inductive Outbound where
  | post (url : String) (body : String) (headers : List (String × String))
  | get (url : String) (headers : List (String × String))
  deriving DecidableEq, Repr

/-- How an outbound call ends: no response at all, or a response with its
status and the `data` axios derives from its body. -/
inductive HttpOutcome where
  | networkError
  | response (status : Nat) (data : JsVal)

/-- The settlement of an axios promise under the default `validateStatus`:
it resolves with `data` for a status in `200..299` and rejects otherwise. -/
def axiosSettle : HttpOutcome → Option JsVal
  | .networkError => none
  | .response status data => if 200 ≤ status ∧ status < 300 then some data else none

/-- What the handler answers the browser: `res.send(body)` or
`res.redirect(location)`. -/
inductive Response where
  | send (body : String)
  | redirect (location : String)
  deriving DecidableEq, Repr

/-- A line written by `console.error`. -/
inductive LogLine where
  | tokenExchangeError
  | userInfoError
  | destroyError
  deriving DecidableEq, Repr

/-- The effects of one handler run: the session a later request of the same
browser finds, the response, the outbound calls made and the lines logged. -/
structure Outcome where
  session : Session
  response : Response
  outbound : List Outbound
  logged : List LogLine

/-! ## The route handlers -/

/-- The handler of `GET /` (lines 39-41). -/
def rootHandler (s : Session) : Outcome :=
  { session := s
    response := .send "<a href=\"/auth\">Login with Microsoft Entra ID</a>"
    outbound := []
    logged := [] }

/-- The object passed to `qs.stringify` by `/auth` (lines 50-58). -/
def authParams (cfg : Config) (codeChallenge : String) : List (String × Option String) :=
  [("client_id", cfg.clientId),
   ("response_type", some "code"),
   ("redirect_uri", cfg.redirectUri),
   ("response_mode", some "query"),
   ("scope", some cfg.scope),
   ("code_challenge", some codeChallenge),
   ("code_challenge_method", some "S256")]

/-- The handler of `GET /auth` (lines 44-61); `randomBytes` is the buffer
`crypto.randomBytes(32)` returns in this run. -/
def authHandler (cfg : Config) (randomBytes : List Nat) (s : Session) : Outcome :=
  let codeVerifier := generateCodeVerifier randomBytes
  let codeChallenge := generateCodeChallenge codeVerifier
  let authUrl := cfg.authority ++ "/" ++ templateString cfg.tenantId ++
    "/oauth2/v2.0/authorize?" ++ qsStringify (authParams cfg codeChallenge)
  { session := { s with codeVerifier := some codeVerifier }
    response := .redirect authUrl
    outbound := []
    logged := [] }

/-- The `tokenUrl` of the callback (line 70). -/
def tokenUrl (cfg : Config) : String :=
  cfg.authority ++ "/" ++ templateString cfg.tenantId ++ "/oauth2/v2.0/token"

/-- The `tokenParams` object of the callback (lines 72-80). -/
def tokenParams (cfg : Config) (code : Option String) (s : Session) :
    List (String × Option String) :=
  [("client_id", cfg.clientId),
   ("scope", some cfg.scope),
   ("code", code),
   ("redirect_uri", cfg.redirectUri),
   ("grant_type", some "authorization_code"),
   ("client_secret", cfg.clientSecret),
   ("code_verifier", s.codeVerifier)]

/-- The `axios.post` call of the callback (lines 83-87). -/
def tokenRequest (cfg : Config) (code : Option String) (s : Session) : Outbound :=
  .post (tokenUrl cfg) (qsStringify (tokenParams cfg code s))
    [("Content-Type", "application/x-www-form-urlencoded")]

/-- The handler of `GET /auth/callback` (lines 67-96); `code` is
`req.query.code` (absent, or the string of a single `code` parameter) and
`tokenEndpoint` is how the provider ends the call it is sent. -/
def callbackHandler (cfg : Config) (code : Option String)
    (tokenEndpoint : Outbound → HttpOutcome) (s : Session) : Outcome :=
  let call := tokenRequest cfg code s
  match axiosSettle (tokenEndpoint call) with
  | some data =>
      { session := { s with tokenSet := some data }
        response := .redirect "/profile"
        outbound := [call]
        logged := [] }
  | none =>
      { session := s
        response := .redirect "/"
        outbound := [call]
        logged := [.tokenExchangeError] }

/-- The `axios.get` call of the profile page (lines 108-112). -/
def profileRequest (tokenSet : JsVal) : Outbound :=
  .get "https://graph.microsoft.com/v1.0/me"
    [("Authorization", "Bearer " ++ templateValue tokenSet.accessToken)]

/-- The handler of `GET /profile` (lines 100-119); `profileEndpoint` is how
the provider ends the call it is sent. -/
def profileHandler (profileEndpoint : Outbound → HttpOutcome) (s : Session) : Outcome :=
  match s.tokenSet with
  | none => { session := s, response := .redirect "/", outbound := [], logged := [] }
  | some tokenSet =>
      if tokenSet.truthy = false then
        { session := s, response := .redirect "/", outbound := [], logged := [] }
      else
        let call := profileRequest tokenSet
        match axiosSettle (profileEndpoint call) with
        | some data =>
            { session := s
              response := .send ("<h1>Profile</h1><pre>" ++ JsVal.stringify "" data ++
                "</pre><a href=\"/logout\">logout</a>")
              outbound := [call]
              logged := [] }
        | none =>
            { session := s
              response := .redirect "/"
              outbound := [call]
              logged := [.userInfoError] }

/-- The handler of `GET /logout` (lines 121-128); `destroyError` tells
whether the store reports an error to the callback of `destroy`. A destroyed
session leaves a later request with a fresh one; on an error the store is
taken to have kept the record. -/
def logoutHandler (destroyError : Bool) (s : Session) : Outcome :=
  { session := if destroyError then s else Session.fresh
    response := .redirect "/"
    outbound := []
    logged := if destroyError then [.destroyError] else [] }

/-! ## Sequences of requests on one session -/

/-- A request of the browser together with what the environment does
during it. -/
inductive Request where
  | root
  | auth (randomBytes : List Nat)
  | callback (code : Option String) (tokenEndpoint : Outbound → HttpOutcome)
  | profile (profileEndpoint : Outbound → HttpOutcome)
  | logout (destroyError : Bool)

/-- Route dispatch. -/
def handle (cfg : Config) (s : Session) : Request → Outcome
  | .root => rootHandler s
  | .auth randomBytes => authHandler cfg randomBytes s
  | .callback code tokenEndpoint => callbackHandler cfg code tokenEndpoint s
  | .profile profileEndpoint => profileHandler profileEndpoint s
  | .logout destroyError => logoutHandler destroyError s

/-- The session after a sequence of requests. -/
def run (cfg : Config) (s : Session) (reqs : List Request) : Session :=
  reqs.foldl (fun st r => (handle cfg st r).session) s

/-- A request that neither starts a new authorization attempt nor ends the
session: anything but `/auth` and a `/logout` whose destruction succeeds. -/
def Request.keepsAttempt : Request → Bool
  | .auth _ => false
  | .logout destroyError => destroyError
  | _ => true

/-- Whether a value is a JSON object that has an `access_token` property. -/
def JsVal.hasAccessToken : JsVal → Bool
  | .obj fields => (fields.lookup "access_token").isSome
  | _ => false

/-- Whether a buffer holds bytes. -/
def isBytes (buf : List Nat) : Prop :=
  ∀ b ∈ buf, b < 256

instance (buf : List Nat) : Decidable (isBytes buf) := by
  unfold isBytes
  infer_instance

/-! ## Example inputs -/

/-- A configuration with every variable set. -/
def exampleConfig : Config :=
  config
    { CLIENT_ID := some "11111111-2222-3333-4444-555555555555"
      CLIENT_SECRET_VALUE := some "s3cr3t~value"
      TENANT_ID := some "common"
      REDIRECT_URI := some "http://localhost:3000/auth/callback" }

/-- A buffer of 32 bytes. -/
def exampleBytes : List Nat :=
  List.replicate 32 171

/-- The token response of Scenario B. -/
def exampleTokenSet : JsVal :=
  .obj [("access_token", .str "abc")]

/-- A provider that answers every call with status 200 and `data`. -/
def answerOk (data : JsVal) : Outbound → HttpOutcome :=
  fun _ => .response 200 data

/-- A provider that answers every call with the status `status` and an
error document. -/
def answerStatus (status : Nat) : Outbound → HttpOutcome :=
  fun _ => .response status (.obj [("error", .str "invalid_grant")])

/-! ## Encoders: lengths and alphabets -/

theorem sha256_length (msg : List Nat) : (sha256 msg).length = 32 := by
  simp [sha256, digestBytes, wordBytes]

theorem sha256_isBytes (msg : List Nat) : isBytes (sha256 msg) := by
  intro b hb
  simp only [sha256, digestBytes, wordBytes, List.mem_append, List.mem_cons,
    List.mem_singleton, List.not_mem_nil, or_false] at hb
  omega

theorem base64urlEncode_length (bytes : List Nat) :
    (base64urlEncode bytes).length = (4 * bytes.length + 2) / 3 := by
  induction bytes using base64urlEncode.induct with
  | case1 a b c rest ih =>
      simp only [base64urlEncode, List.length_cons, ih]
      omega
  | case2 a b => simp [base64urlEncode]
  | case3 a => simp [base64urlEncode]
  | case4 => simp [base64urlEncode]

theorem base64urlChar_mem (n : Nat) (h : n < 64) : base64urlChar n ∈ base64urlTable := by
  have hlen : n < base64urlTable.length := by simpa [base64urlTable] using h
  simp only [base64urlChar, List.getD_eq_getElem _ _ hlen]
  exact List.getElem_mem _

theorem base64urlEncode_mem (bytes : List Nat) (hb : isBytes bytes) :
    ∀ c ∈ base64urlEncode bytes, c ∈ base64urlTable := by
  induction bytes using base64urlEncode.induct with
  | case1 a b c rest ih =>
      have ha : a < 256 := hb a (by simp)
      have hb2 : b < 256 := hb b (by simp)
      have hc : c < 256 := hb c (by simp)
      have hrest : isBytes rest := fun x hx => hb x (by simp [hx])
      intro ch hch
      simp only [base64urlEncode, List.mem_cons] at hch
      rcases hch with h | h | h | h | h
      · exact h ▸ base64urlChar_mem _ (by omega)
      · exact h ▸ base64urlChar_mem _ (by omega)
      · exact h ▸ base64urlChar_mem _ (by omega)
      · exact h ▸ base64urlChar_mem _ (by omega)
      · exact ih hrest ch h
  | case2 a b =>
      have ha : a < 256 := hb a (by simp)
      have hb2 : b < 256 := hb b (by simp)
      intro ch hch
      simp only [base64urlEncode, List.mem_cons, List.mem_singleton, List.not_mem_nil,
        or_false] at hch
      rcases hch with h | h | h
      · exact h ▸ base64urlChar_mem _ (by omega)
      · exact h ▸ base64urlChar_mem _ (by omega)
      · exact h ▸ base64urlChar_mem _ (by omega)
  | case3 a =>
      have ha : a < 256 := hb a (by simp)
      intro ch hch
      simp only [base64urlEncode, List.mem_cons, List.mem_singleton, List.not_mem_nil,
        or_false] at hch
      rcases hch with h | h
      · exact h ▸ base64urlChar_mem _ (by omega)
      · exact h ▸ base64urlChar_mem _ (by omega)
  | case4 => simp [base64urlEncode]

theorem base64urlTable_chars :
    ∀ c ∈ base64urlTable, isBase64urlChar c = true ∧ c ≠ '=' ∧
      c.toNat < 128 ∧ noEscapeTable.getD c.toNat 0 = 1 := by
  decide

theorem hexLowerTable_chars :
    ∀ c ∈ hexLowerTable, isHexChar c = true ∧
      c.toNat < 128 ∧ noEscapeTable.getD c.toNat 0 = 1 := by
  decide

theorem sextet_urlSafe :
    ∀ n < 64, toUrlSafe (base64Char n) = base64urlChar n ∧
      (base64urlChar n != '=') = true := by
  decide

theorem reference_encoding_eq (bytes : List Nat) (hb : isBytes bytes) :
    ((base64PaddedEncode bytes).map toUrlSafe).filter (fun c => c != '=') =
      base64urlEncode bytes := by
  induction bytes using base64urlEncode.induct with
  | case1 a b c rest ih =>
      have ha : a < 256 := hb a (by simp)
      have hb2 : b < 256 := hb b (by simp)
      have hc : c < 256 := hb c (by simp)
      have hrest : isBytes rest := fun x hx => hb x (by simp [hx])
      have h1 := sextet_urlSafe (a / 4) (by omega)
      have h2 := sextet_urlSafe (a % 4 * 16 + b / 16) (by omega)
      have h3 := sextet_urlSafe (b % 16 * 4 + c / 64) (by omega)
      have h4 := sextet_urlSafe (c % 64) (by omega)
      simp only [base64PaddedEncode, base64urlEncode, List.map_cons, h1.1, h2.1, h3.1, h4.1,
        List.filter_cons, h1.2, h2.2, h3.2, h4.2, if_true, ih hrest]
  | case2 a b =>
      have ha : a < 256 := hb a (by simp)
      have hb2 : b < 256 := hb b (by simp)
      have h1 := sextet_urlSafe (a / 4) (by omega)
      have h2 := sextet_urlSafe (a % 4 * 16 + b / 16) (by omega)
      have h3 := sextet_urlSafe (b % 16 * 4) (by omega)
      have hpad : toUrlSafe '=' = '=' := by decide
      simp [base64PaddedEncode, base64urlEncode, h1.1, h2.1, h3.1, h1.2, h2.2, h3.2, hpad]
  | case3 a =>
      have ha : a < 256 := hb a (by simp)
      have h1 := sextet_urlSafe (a / 4) (by omega)
      have h2 := sextet_urlSafe (a % 4 * 16) (by omega)
      have hpad : toUrlSafe '=' = '=' := by decide
      simp [base64PaddedEncode, base64urlEncode, h1.1, h2.1, h1.2, h2.2, hpad]
  | case4 => simp [base64PaddedEncode, base64urlEncode]

theorem hexLower_mem (n : Nat) (h : n < 16) : hexLower n ∈ hexLowerTable := by
  have hlen : n < hexLowerTable.length := by simpa [hexLowerTable] using h
  simp only [hexLower, List.getD_eq_getElem _ _ hlen]
  exact List.getElem_mem _

theorem hexLower_inj : ∀ i < 16, ∀ j < 16, hexLower i = hexLower j → i = j := by
  decide

theorem hexEncode_length (bytes : List Nat) : (hexEncode bytes).length = 2 * bytes.length := by
  induction bytes with
  | nil => rfl
  | cons b rest ih =>
      simp only [hexEncode, List.flatMap_cons, List.length_append, hexOfByte,
        List.length_cons, List.length_nil] at ih ⊢
      omega

theorem hexEncode_mem (bytes : List Nat) (hb : isBytes bytes) :
    ∀ c ∈ hexEncode bytes, c ∈ hexLowerTable := by
  intro c hc
  simp only [hexEncode, List.mem_flatMap, hexOfByte, List.mem_cons, List.mem_singleton,
    List.not_mem_nil, or_false] at hc
  obtain ⟨b, hbm, h | h⟩ := hc
  · exact h ▸ hexLower_mem _ (by have := hb b hbm; omega)
  · exact h ▸ hexLower_mem _ (by omega)

theorem hexEncode_injective (xs : List Nat) :
    ∀ ys : List Nat, isBytes xs → isBytes ys → hexEncode xs = hexEncode ys → xs = ys := by
  induction xs with
  | nil =>
      intro ys _ _ h
      cases ys with
      | nil => rfl
      | cons y ys => simp [hexEncode, hexOfByte] at h
  | cons x xs ih =>
      intro ys hx hy h
      cases ys with
      | nil => simp [hexEncode, hexOfByte] at h
      | cons y ys =>
          have hx0 : x < 256 := hx x (by simp)
          have hy0 : y < 256 := hy y (by simp)
          simp only [hexEncode, List.flatMap_cons, hexOfByte, List.cons_append,
            List.nil_append, List.cons.injEq] at h
          obtain ⟨h1, h2, h3⟩ := h
          have e1 := hexLower_inj (x / 16) (by omega) (y / 16) (by omega) h1
          have e2 := hexLower_inj (x % 16) (by omega) (y % 16) (by omega) h2
          have hxy : x = y := by omega
          have hrest := ih ys (fun b hb => hx b (by simp [hb])) (fun b hb => hy b (by simp [hb])) h3
          rw [hxy, hrest]

theorem flatMap_qsEscapeChar_eq (l : List Char)
    (h : ∀ c ∈ l, c.toNat < 128 ∧ noEscapeTable.getD c.toNat 0 = 1) :
    l.flatMap qsEscapeChar = l := by
  induction l with
  | nil => rfl
  | cons c cs ih =>
      have hc := h c (by simp)
      have hcs := ih (fun x hx => h x (by simp [hx]))
      have h128 : c.toNat < 0x80 := hc.1
      simp only [List.flatMap_cons, qsEscapeChar, h128, hc.2, if_true, hcs]
      rfl

theorem qsEscape_base64url (bytes : List Nat) (hb : isBytes bytes) :
    qsEscape (String.mk (base64urlEncode bytes)) = String.mk (base64urlEncode bytes) := by
  simp only [qsEscape]
  rw [flatMap_qsEscapeChar_eq]
  intro c hc
  exact (base64urlTable_chars c (base64urlEncode_mem bytes hb c hc)).2.2

theorem qsEscape_hex (bytes : List Nat) (hb : isBytes bytes) :
    qsEscape (String.mk (hexEncode bytes)) = String.mk (hexEncode bytes) := by
  simp only [qsEscape]
  rw [flatMap_qsEscapeChar_eq]
  intro c hc
  exact (hexLowerTable_chars c (hexEncode_mem bytes hb c hc)).2

/-! ## Test vectors of the credential generator -/

set_option maxRecDepth 100000 in
theorem sha256_abc :
    sha256 [97, 98, 99] =
      [0xba, 0x78, 0x16, 0xbf, 0x8f, 0x01, 0xcf, 0xea, 0x41, 0x41, 0x40, 0xde, 0x5d, 0xae,
       0x22, 0x23, 0xb0, 0x03, 0x61, 0xa3, 0x96, 0x17, 0x7a, 0x9c, 0xb4, 0x10, 0xff, 0x61,
       0xf2, 0x00, 0x15, 0xad] := by
  decide

set_option maxRecDepth 100000 in
theorem generateCodeChallenge_rfc7636 :
    generateCodeChallenge "dBjftJeZ4CVP-mB92K27uhbUJU1p1r_wW1gFWFOEjXk" =
      "E9Melhoa2OwvFrEMTJguCHaoeK1t8URWbuGJSstw-cM" := by
  rfl

set_option maxRecDepth 100000 in
theorem generateCodeChallenge_two_blocks :
    generateCodeChallenge (generateCodeVerifier (List.replicate 32 0)) =
      "YOBb0bGVry-UES-nGXpciCiQWIQM58bflpN1a8YlD1U" := by
  rfl

/-- A vector of `querystring.escape`: reserved ASCII and a two-byte
character are escaped, unreserved characters are kept. -/
theorem qsEscape_vector :
    qsEscape "a b&c=d/e:~f.(g)-é" = "a%20b%26c%3Dd%2Fe%3A~f.(g)-%C3%A9" := by
  decide

/-! ## C1, C2: the credential generator -/

/-- C1: for every verifier string, `generateCodeChallenge` equals the
reference S256 transform (base64url without padding of the SHA-256 digest of
the verifier's bytes); equal verifiers give equal challenges; the challenge
has exactly 43 characters, each from `A-Z a-z 0-9 - _`, and no `=`. -/
theorem generateCodeChallenge_s256 (verifier : String) :
    generateCodeChallenge verifier = pkceS256Reference verifier ∧
    (∀ other : String, other = verifier →
      generateCodeChallenge other = generateCodeChallenge verifier) ∧
    (generateCodeChallenge verifier).length = 43 ∧
    (∀ c ∈ (generateCodeChallenge verifier).data, isBase64urlChar c = true) ∧
    '=' ∉ (generateCodeChallenge verifier).data := by
  have hbytes := sha256_isBytes (utf8Bytes verifier)
  refine ⟨?_, ?_, ?_, ?_, ?_⟩
  · simp only [generateCodeChallenge, pkceS256Reference, reference_encoding_eq _ hbytes]
  · intro other h
    rw [h]
  · simp only [generateCodeChallenge, String.length, base64urlEncode_length, sha256_length]
  · intro c hc
    exact (base64urlTable_chars c (base64urlEncode_mem _ hbytes c hc)).1
  · intro hc
    exact (base64urlTable_chars _ (base64urlEncode_mem _ hbytes _ hc)).2.1 rfl

/-- C2: for every 32-byte output of the random source, `generateCodeVerifier`
returns exactly 64 characters, each in `0-9 a-f`; so its length lies between
43 and 128, `querystring.escape` leaves it unchanged, and two distinct
32-byte outputs give distinct verifiers. -/
theorem generateCodeVerifier_format (randomBytes : List Nat)
    (hlen : randomBytes.length = 32) (hbytes : isBytes randomBytes) :
    (generateCodeVerifier randomBytes).length = 64 ∧
    (∀ c ∈ (generateCodeVerifier randomBytes).data, isHexChar c = true) ∧
    (43 ≤ (generateCodeVerifier randomBytes).length ∧
      (generateCodeVerifier randomBytes).length ≤ 128) ∧
    qsEscape (generateCodeVerifier randomBytes) = generateCodeVerifier randomBytes ∧
    (∀ other : List Nat, other.length = 32 → isBytes other →
      generateCodeVerifier other = generateCodeVerifier randomBytes → other = randomBytes) := by
  have hl : (generateCodeVerifier randomBytes).length = 64 := by
    simp only [generateCodeVerifier, String.length, hexEncode_length, hlen]
  refine ⟨hl, ?_, ?_, ?_, ?_⟩
  · intro c hc
    exact (hexLowerTable_chars c (hexEncode_mem _ hbytes c hc)).1
  · omega
  · exact qsEscape_hex _ hbytes
  · intro other _ hother h
    exact hexEncode_injective other randomBytes hother hbytes (congrArg String.data h)

/-- Witness of C2 at a buffer of 32 bytes `0xab`. -/
theorem generateCodeVerifier_format_witness :
    exampleBytes.length = 32 ∧ isBytes exampleBytes ∧
    (generateCodeVerifier exampleBytes).length = 64 ∧
    (∀ c ∈ (generateCodeVerifier exampleBytes).data, isHexChar c = true) ∧
    (43 ≤ (generateCodeVerifier exampleBytes).length ∧
      (generateCodeVerifier exampleBytes).length ≤ 128) ∧
    qsEscape (generateCodeVerifier exampleBytes) = generateCodeVerifier exampleBytes ∧
    (∀ other : List Nat, other.length = 32 → isBytes other →
      generateCodeVerifier other = generateCodeVerifier exampleBytes → other = exampleBytes) :=
  ⟨by decide, by decide, generateCodeVerifier_format exampleBytes (by decide) (by decide)⟩

/-! ## Query strings: what a receiver reads back -/

theorem hexUpper_ne_sep (n : Nat) : hexUpper n ≠ '&' ∧ hexUpper n ≠ '=' := by
  by_cases h : n < hexUpperTable.length
  · have hmem : hexUpper n ∈ hexUpperTable := by
      simp only [hexUpper, List.getD_eq_getElem _ _ h]
      exact List.getElem_mem _
    have hall : ∀ c ∈ hexUpperTable, c ≠ '&' ∧ c ≠ '=' := by decide
    exact hall _ hmem
  · have hd : hexUpper n = '?' := by
      simp only [hexUpper]
      exact List.getD_eq_default _ _ (by omega)
    rw [hd]
    decide

theorem percentByte_ne_sep (b : Nat) : ∀ c ∈ percentByte b, c ≠ '&' ∧ c ≠ '=' := by
  intro c hc
  simp only [percentByte, List.mem_cons, List.mem_singleton, List.not_mem_nil, or_false] at hc
  rcases hc with h | h | h
  · rw [h]
    decide
  · exact h ▸ hexUpper_ne_sep _
  · exact h ▸ hexUpper_ne_sep _

theorem qsEscapeChar_ne_sep (ch : Char) : ∀ c ∈ qsEscapeChar ch, c ≠ '&' ∧ c ≠ '=' := by
  intro c hc
  unfold qsEscapeChar at hc
  split at hc
  · split at hc
    · rename_i htab
      simp only [List.mem_singleton] at hc
      subst hc
      constructor
      · intro h
        rw [h] at htab
        exact absurd htab (by decide)
      · intro h
        rw [h] at htab
        exact absurd htab (by decide)
    · exact percentByte_ne_sep _ c hc
  · simp only [List.mem_flatMap] at hc
    obtain ⟨b, _, hb⟩ := hc
    exact percentByte_ne_sep b c hb

theorem qsEscape_ne_sep (s : String) : ∀ c ∈ (qsEscape s).data, c ≠ '&' ∧ c ≠ '=' := by
  intro c hc
  simp only [qsEscape, List.mem_flatMap] at hc
  obtain ⟨ch, _, h⟩ := hc
  exact qsEscapeChar_ne_sep ch c h

theorem encodeStringified_ne_sep (v : Option String) :
    ∀ c ∈ (encodeStringified v).data, c ≠ '&' ∧ c ≠ '=' := by
  cases v with
  | none =>
      intro c hc
      simp [encodeStringified] at hc
  | some s => exact qsEscape_ne_sep s

theorem splitOnChar_ne_nil (sep : Char) (l : List Char) : splitOnChar sep l ≠ [] := by
  induction l with
  | nil => simp [splitOnChar]
  | cons c cs ih =>
      simp only [splitOnChar]
      split
      · simp
      · split <;> simp

theorem splitOnChar_of_not_mem (sep : Char) (a : List Char) (h : sep ∉ a) :
    splitOnChar sep a = [a] := by
  induction a with
  | nil => rfl
  | cons c cs ih =>
      have hc : c ≠ sep := fun e => h (by simp [e])
      have hcs : sep ∉ cs := fun e => h (by simp [e])
      simp only [splitOnChar, hc, if_false, ih hcs]

theorem splitOnChar_append (sep : Char) (a b : List Char) (h : sep ∉ a) :
    splitOnChar sep (a ++ sep :: b) = a :: splitOnChar sep b := by
  induction a with
  | nil => simp [splitOnChar]
  | cons c cs ih =>
      have hc : c ≠ sep := fun e => h (by simp [e])
      have hcs : sep ∉ cs := fun e => h (by simp [e])
      show splitOnChar sep (c :: (cs ++ sep :: b)) = (c :: cs) :: splitOnChar sep b
      simp only [splitOnChar, hc, if_false, ih hcs]

theorem splitField_append (k v : List Char) (h : '=' ∉ k) :
    splitField (k ++ '=' :: v) = (String.mk k, String.mk v) := by
  induction k with
  | nil => simp [splitField]
  | cons c cs ih =>
      have hc : c ≠ '=' := fun e => h (by simp [e])
      have hcs : '=' ∉ cs := fun e => h (by simp [e])
      show splitField (c :: (cs ++ '=' :: v)) = (String.mk (c :: cs), String.mk v)
      simp only [splitField, hc, if_false, ih hcs]
      rfl

theorem qsField_data (kv : String × Option String) :
    (qsField kv).data = (qsEscape kv.1).data ++ '=' :: (encodeStringified kv.2).data := by
  simp [qsField, String.data_append]

theorem qsField_no_amp (kv : String × Option String) : '&' ∉ (qsField kv).data := by
  rw [qsField_data]
  intro h
  simp only [List.mem_append, List.mem_cons] at h
  rcases h with h | h | h
  · exact (qsEscape_ne_sep _ _ h).1 rfl
  · exact absurd h (by decide)
  · exact (encodeStringified_ne_sep _ _ h).1 rfl

theorem splitField_qsField (kv : String × Option String) :
    splitField (qsField kv).data = (qsEscape kv.1, encodeStringified kv.2) := by
  rw [qsField_data, splitField_append _ _ (fun h => (qsEscape_ne_sep _ _ h).2 rfl)]

theorem splitOnChar_joinFields (f : String × Option String)
    (fs : List (String × Option String)) :
    splitOnChar '&' (joinFields ((f :: fs).map qsField)).data =
      ((f :: fs).map qsField).map String.data := by
  induction fs generalizing f with
  | nil =>
      simp only [List.map_cons, List.map_nil, joinFields]
      exact splitOnChar_of_not_mem _ _ (qsField_no_amp f)
  | cons g gs ih =>
      have h := ih g
      simp only [List.map_cons, joinFields, String.data_append] at h ⊢
      rw [List.append_assoc, List.singleton_append,
        splitOnChar_append _ _ _ (qsField_no_amp f), h]

/-- Reading a stringified object back gives its fields in order, each name
and value escaped. -/
theorem queryFields_qsStringify (f : String × Option String)
    (fs : List (String × Option String)) :
    queryFields (qsStringify (f :: fs)) =
      (f :: fs).map fun kv => (qsEscape kv.1, encodeStringified kv.2) := by
  simp only [queryFields, qsStringify, splitOnChar_joinFields, List.map_map]
  apply List.map_congr_left
  intro kv _
  exact splitField_qsField kv

/-! ## The two query strings the handlers build -/

theorem qsEscape_keys :
    qsEscape "client_id" = "client_id" ∧ qsEscape "response_type" = "response_type" ∧
    qsEscape "redirect_uri" = "redirect_uri" ∧ qsEscape "response_mode" = "response_mode" ∧
    qsEscape "scope" = "scope" ∧ qsEscape "code_challenge" = "code_challenge" ∧
    qsEscape "code_challenge_method" = "code_challenge_method" ∧
    qsEscape "code" = "code" ∧ qsEscape "grant_type" = "grant_type" ∧
    qsEscape "client_secret" = "client_secret" ∧ qsEscape "code_verifier" = "code_verifier" ∧
    qsEscape "query" = "query" ∧ qsEscape "S256" = "S256" ∧
    qsEscape "authorization_code" = "authorization_code" := by
  decide

/-- The query string of `/auth`, spelled out. -/
theorem qsStringify_authParams (cfg : Config) (codeChallenge : String) :
    qsStringify (authParams cfg codeChallenge) =
      "client_id=" ++ encodeStringified cfg.clientId ++
      "&response_type=code&redirect_uri=" ++ encodeStringified cfg.redirectUri ++
      "&response_mode=query&scope=" ++ qsEscape cfg.scope ++
      "&code_challenge=" ++ qsEscape codeChallenge ++
      "&code_challenge_method=S256" := by
  obtain ⟨k1, k2, k3, k4, k5, k6, k7, k8, -, -, -, v1, v2, -⟩ := qsEscape_keys
  have es : ∀ x : String, encodeStringified (some x) = qsEscape x := fun _ => rfl
  apply String.ext
  simp only [qsStringify, authParams, List.map_cons, List.map_nil, joinFields, qsField,
    es, k1, k2, k3, k4, k5, k6, k7, k8, v1, v2, String.data_append, List.append_assoc,
    List.cons_append, List.nil_append]

/-- The form body of the token request, spelled out. -/
theorem qsStringify_tokenParams (cfg : Config) (code : Option String) (s : Session) :
    qsStringify (tokenParams cfg code s) =
      "client_id=" ++ encodeStringified cfg.clientId ++
      "&scope=" ++ qsEscape cfg.scope ++
      "&code=" ++ encodeStringified code ++
      "&redirect_uri=" ++ encodeStringified cfg.redirectUri ++
      "&grant_type=authorization_code&client_secret=" ++ encodeStringified cfg.clientSecret ++
      "&code_verifier=" ++ encodeStringified s.codeVerifier := by
  obtain ⟨k1, -, k3, -, k5, -, -, k8, k9, k10, k11, -, -, v3⟩ := qsEscape_keys
  have es : ∀ x : String, encodeStringified (some x) = qsEscape x := fun _ => rfl
  apply String.ext
  simp only [qsStringify, tokenParams, List.map_cons, List.map_nil, joinFields, qsField,
    es, k1, k3, k5, k8, k9, k10, k11, v3, String.data_append, List.append_assoc,
    List.cons_append, List.nil_append]

/-- The fields a receiver reads from the query string of `/auth`. -/
theorem queryFields_authParams (cfg : Config) (codeChallenge : String) :
    queryFields (qsStringify (authParams cfg codeChallenge)) =
      [("client_id", encodeStringified cfg.clientId),
       ("response_type", "code"),
       ("redirect_uri", encodeStringified cfg.redirectUri),
       ("response_mode", "query"),
       ("scope", qsEscape cfg.scope),
       ("code_challenge", qsEscape codeChallenge),
       ("code_challenge_method", "S256")] := by
  obtain ⟨k1, k2, k3, k4, k5, k6, k7, k8, -, -, -, v1, v2, -⟩ := qsEscape_keys
  have es : ∀ x : String, encodeStringified (some x) = qsEscape x := fun _ => rfl
  simp only [authParams, queryFields_qsStringify, List.map_cons, List.map_nil,
    es, k1, k2, k3, k4, k5, k6, k7, k8, v1, v2]

/-- The fields a receiver reads from the form body of the token request. -/
theorem queryFields_tokenParams (cfg : Config) (code : Option String) (s : Session) :
    queryFields (qsStringify (tokenParams cfg code s)) =
      [("client_id", encodeStringified cfg.clientId),
       ("scope", qsEscape cfg.scope),
       ("code", encodeStringified code),
       ("redirect_uri", encodeStringified cfg.redirectUri),
       ("grant_type", "authorization_code"),
       ("client_secret", encodeStringified cfg.clientSecret),
       ("code_verifier", encodeStringified s.codeVerifier)] := by
  obtain ⟨k1, -, k3, -, k5, -, -, k8, k9, k10, k11, -, -, v3⟩ := qsEscape_keys
  have es : ∀ x : String, encodeStringified (some x) = qsEscape x := fun _ => rfl
  simp only [tokenParams, queryFields_qsStringify, List.map_cons, List.map_nil,
    es, k1, k3, k5, k8, k9, k10, k11, v3]

theorem qsEscape_challenge (verifier : String) :
    qsEscape (generateCodeChallenge verifier) = generateCodeChallenge verifier :=
  qsEscape_base64url _ (sha256_isBytes _)

/-! ## Handlers: the two ways a call settles -/

theorem axiosSettle_ok (status : Nat) (data : JsVal) (h : 200 ≤ status ∧ status < 300) :
    axiosSettle (.response status data) = some data := by
  simp only [axiosSettle, h, and_self, if_true]

theorem axiosSettle_bad (status : Nat) (data : JsVal) (h : ¬ (200 ≤ status ∧ status < 300)) :
    axiosSettle (.response status data) = none := by
  simp only [axiosSettle, h, if_false]

theorem callbackHandler_resolved (cfg : Config) (code : Option String)
    (tokenEndpoint : Outbound → HttpOutcome) (s : Session) (data : JsVal)
    (h : axiosSettle (tokenEndpoint (tokenRequest cfg code s)) = some data) :
    callbackHandler cfg code tokenEndpoint s =
      { session := { s with tokenSet := some data }
        response := .redirect "/profile"
        outbound := [tokenRequest cfg code s]
        logged := [] } := by
  simp only [callbackHandler, h]

theorem callbackHandler_rejected (cfg : Config) (code : Option String)
    (tokenEndpoint : Outbound → HttpOutcome) (s : Session)
    (h : axiosSettle (tokenEndpoint (tokenRequest cfg code s)) = none) :
    callbackHandler cfg code tokenEndpoint s =
      { session := s
        response := .redirect "/"
        outbound := [tokenRequest cfg code s]
        logged := [.tokenExchangeError] } := by
  simp only [callbackHandler, h]

theorem callbackHandler_codeVerifier (cfg : Config) (code : Option String)
    (tokenEndpoint : Outbound → HttpOutcome) (s : Session) :
    (callbackHandler cfg code tokenEndpoint s).session.codeVerifier = s.codeVerifier := by
  cases h : axiosSettle (tokenEndpoint (tokenRequest cfg code s)) with
  | none => rw [callbackHandler_rejected cfg code tokenEndpoint s h]
  | some data => rw [callbackHandler_resolved cfg code tokenEndpoint s data h]

theorem callbackHandler_outbound (cfg : Config) (code : Option String)
    (tokenEndpoint : Outbound → HttpOutcome) (s : Session) :
    (callbackHandler cfg code tokenEndpoint s).outbound = [tokenRequest cfg code s] := by
  cases h : axiosSettle (tokenEndpoint (tokenRequest cfg code s)) with
  | none => rw [callbackHandler_rejected cfg code tokenEndpoint s h]
  | some data => rw [callbackHandler_resolved cfg code tokenEndpoint s data h]

theorem profileHandler_session (profileEndpoint : Outbound → HttpOutcome) (s : Session) :
    (profileHandler profileEndpoint s).session = s := by
  unfold profileHandler
  split
  · rfl
  · split
    · rfl
    · dsimp only
      split <;> rfl

theorem profileHandler_outbound (profileEndpoint : Outbound → HttpOutcome) (s : Session) :
    (profileHandler profileEndpoint s).outbound = [] ∨
      ∃ tokenSet, s.tokenSet = some tokenSet ∧ tokenSet.truthy = true ∧
        (profileHandler profileEndpoint s).outbound = [profileRequest tokenSet] := by
  unfold profileHandler
  split
  · exact Or.inl rfl
  · rename_i tokenSet hts
    split
    · exact Or.inl rfl
    · rename_i htruthy
      refine Or.inr ⟨tokenSet, hts, by simpa using htruthy, ?_⟩
      dsimp only
      split <;> rfl

theorem profileHandler_outbound_truthy (profileEndpoint : Outbound → HttpOutcome)
    (s : Session) (tokenSet : JsVal) (hts : s.tokenSet = some tokenSet)
    (htruthy : tokenSet.truthy = true) :
    (profileHandler profileEndpoint s).outbound = [profileRequest tokenSet] := by
  unfold profileHandler
  rw [hts]
  simp only [htruthy, Bool.true_eq_false, if_false]
  split <;> rfl

theorem profileHandler_rejected (profileEndpoint : Outbound → HttpOutcome) (s : Session)
    (h : ∀ call, axiosSettle (profileEndpoint call) = none) :
    (profileHandler profileEndpoint s).response = .redirect "/" := by
  unfold profileHandler
  split
  · rfl
  · split
    · rfl
    · simp only [h]

theorem handle_keepsAttempt (cfg : Config) (s : Session) (r : Request)
    (h : r.keepsAttempt = true) : (handle cfg s r).session.codeVerifier = s.codeVerifier := by
  cases r with
  | root => rfl
  | auth randomBytes => simp [Request.keepsAttempt] at h
  | callback code tokenEndpoint => exact callbackHandler_codeVerifier cfg code tokenEndpoint s
  | profile profileEndpoint =>
      simp only [handle, profileHandler_session]
  | logout destroyError =>
      simp only [Request.keepsAttempt] at h
      simp only [handle, logoutHandler, h, if_true]

theorem run_keepsAttempt (cfg : Config) (reqs : List Request) :
    ∀ s : Session, (∀ r ∈ reqs, r.keepsAttempt = true) →
      (run cfg s reqs).codeVerifier = s.codeVerifier := by
  induction reqs with
  | nil =>
      intro s _
      rfl
  | cons r rest ih =>
      intro s h
      have hr := handle_keepsAttempt cfg s r (h r (by simp))
      have hrest := ih (handle cfg s r).session (fun x hx => h x (by simp [hx]))
      simp only [run, List.foldl_cons] at hrest ⊢
      rw [hrest, hr]

/-! ## C3: the authorization redirect -/

/-- C3: for every session state and every configuration whose tenant id is
`tenantId`, `GET /auth` writes the newly generated verifier to
`session.codeVerifier` (whatever it held), leaves the rest of the session
alone, makes no outbound call, and redirects to
`{authority}/{tenantId}/oauth2/v2.0/authorize?` followed by a query string
whose fields are exactly `client_id`, `response_type=code`, `redirect_uri`,
`response_mode=query`, `scope`, `code_challenge`,
`code_challenge_method=S256`, the `code_challenge` being
`generateCodeChallenge` of the verifier now in the session. -/
theorem auth_stores_verifier_and_redirects (cfg : Config) (tenantId : String)
    (randomBytes : List Nat) (s : Session) (htenant : cfg.tenantId = some tenantId) :
    ∃ verifier query : String,
      verifier = generateCodeVerifier randomBytes ∧
      (authHandler cfg randomBytes s).session.codeVerifier = some verifier ∧
      (authHandler cfg randomBytes s).session.tokenSet = s.tokenSet ∧
      (authHandler cfg randomBytes s).outbound = [] ∧
      (authHandler cfg randomBytes s).response =
        .redirect (cfg.authority ++ "/" ++ tenantId ++ "/oauth2/v2.0/authorize?" ++ query) ∧
      query =
        "client_id=" ++ encodeStringified cfg.clientId ++
        "&response_type=code&redirect_uri=" ++ encodeStringified cfg.redirectUri ++
        "&response_mode=query&scope=" ++ qsEscape cfg.scope ++
        "&code_challenge=" ++ generateCodeChallenge verifier ++
        "&code_challenge_method=S256" ∧
      queryFields query =
        [("client_id", encodeStringified cfg.clientId),
         ("response_type", "code"),
         ("redirect_uri", encodeStringified cfg.redirectUri),
         ("response_mode", "query"),
         ("scope", qsEscape cfg.scope),
         ("code_challenge", generateCodeChallenge verifier),
         ("code_challenge_method", "S256")] := by
  refine ⟨generateCodeVerifier randomBytes,
    qsStringify (authParams cfg (generateCodeChallenge (generateCodeVerifier randomBytes))),
    rfl, rfl, rfl, rfl, ?_, ?_, ?_⟩
  · simp only [authHandler, htenant, templateString]
  · rw [qsStringify_authParams, qsEscape_challenge]
  · rw [queryFields_authParams, qsEscape_challenge]

/-- Witness of C3, Scenario A: a fresh session and the tenant `common`; the
redirect goes to `https://login.microsoft.com/common/oauth2/v2.0/authorize?`
with the query string of the theorem. -/
theorem auth_stores_verifier_and_redirects_witness :
    exampleConfig.tenantId = some "common" ∧
    ∃ verifier query : String,
      verifier = generateCodeVerifier exampleBytes ∧
      (authHandler exampleConfig exampleBytes Session.fresh).session.codeVerifier =
        some verifier ∧
      (authHandler exampleConfig exampleBytes Session.fresh).session.tokenSet =
        Session.fresh.tokenSet ∧
      (authHandler exampleConfig exampleBytes Session.fresh).outbound = [] ∧
      (authHandler exampleConfig exampleBytes Session.fresh).response =
        .redirect (exampleConfig.authority ++ "/" ++ "common" ++
          "/oauth2/v2.0/authorize?" ++ query) ∧
      query =
        "client_id=" ++ encodeStringified exampleConfig.clientId ++
        "&response_type=code&redirect_uri=" ++ encodeStringified exampleConfig.redirectUri ++
        "&response_mode=query&scope=" ++ qsEscape exampleConfig.scope ++
        "&code_challenge=" ++ generateCodeChallenge verifier ++
        "&code_challenge_method=S256" ∧
      queryFields query =
        [("client_id", encodeStringified exampleConfig.clientId),
         ("response_type", "code"),
         ("redirect_uri", encodeStringified exampleConfig.redirectUri),
         ("response_mode", "query"),
         ("scope", qsEscape exampleConfig.scope),
         ("code_challenge", generateCodeChallenge verifier),
         ("code_challenge_method", "S256")] :=
  ⟨rfl, auth_stores_verifier_and_redirects exampleConfig "common" exampleBytes
    Session.fresh rfl⟩

/-! ## C4: a callback without verifier or code -/

/-- C4, the claim as stated fails: on a fresh session (no `codeVerifier`)
and a request without `code`, a provider that answers 200 with a token
document makes the callback store the `tokenSet` and redirect to `/profile`,
not to `/`. -/
theorem callback_without_verifier_counterexample :
    Session.fresh.codeVerifier = none ∧
    (callbackHandler exampleConfig none (answerOk exampleTokenSet) Session.fresh).response =
      .redirect "/profile" ∧
    (callbackHandler exampleConfig none (answerOk exampleTokenSet) Session.fresh).response ≠
      .redirect "/" ∧
    (callbackHandler exampleConfig none (answerOk exampleTokenSet)
      Session.fresh).session.tokenSet = some exampleTokenSet := by
  refine ⟨rfl, rfl, ?_, rfl⟩
  decide

/-- C4 as amended: on a session that lacks a `codeVerifier`, or for a
request without `code`, the handler checks nothing itself and still sends
the token request, the missing value as an empty field (`code_verifier=`
when the verifier is missing, `code=` when the code is missing); it
redirects to `/` with the session untouched when that call ends in a network
error or a status outside 2xx, and stores the `tokenSet` and redirects to
`/profile` when the provider answers 2xx. -/
theorem callback_without_precondition (cfg : Config) (code : Option String)
    (tokenEndpoint : Outbound → HttpOutcome) (s : Session)
    (h : s.codeVerifier = none ∨ code = none) :
    ∃ body : String,
      (callbackHandler cfg code tokenEndpoint s).outbound =
        [.post (tokenUrl cfg) body [("Content-Type", "application/x-www-form-urlencoded")]] ∧
      (queryFields body).map Prod.fst =
        ["client_id", "scope", "code", "redirect_uri", "grant_type", "client_secret",
         "code_verifier"] ∧
      (queryFields body).lookup "code" = some ((code.map qsEscape).getD "") ∧
      (queryFields body).lookup "code_verifier" =
        some ((s.codeVerifier.map qsEscape).getD "") ∧
      ((s.codeVerifier = none ∧ (queryFields body).lookup "code_verifier" = some "") ∨
        (code = none ∧ (queryFields body).lookup "code" = some "")) ∧
      (s.codeVerifier = none → (queryFields body).lookup "code_verifier" = some "") ∧
      (code = none → (queryFields body).lookup "code" = some "") ∧
      (tokenEndpoint (.post (tokenUrl cfg) body
          [("Content-Type", "application/x-www-form-urlencoded")]) = .networkError →
        (callbackHandler cfg code tokenEndpoint s).response = .redirect "/" ∧
        (callbackHandler cfg code tokenEndpoint s).session = s) ∧
      (∀ status data,
        tokenEndpoint (.post (tokenUrl cfg) body
          [("Content-Type", "application/x-www-form-urlencoded")]) = .response status data →
        (status < 200 ∨ 300 ≤ status) →
        (callbackHandler cfg code tokenEndpoint s).response = .redirect "/" ∧
        (callbackHandler cfg code tokenEndpoint s).session = s) ∧
      (∀ status data,
        tokenEndpoint (.post (tokenUrl cfg) body
          [("Content-Type", "application/x-www-form-urlencoded")]) = .response status data →
        (200 ≤ status ∧ status < 300) →
        (callbackHandler cfg code tokenEndpoint s).response = .redirect "/profile" ∧
        (callbackHandler cfg code tokenEndpoint s).session.tokenSet = some data ∧
        (callbackHandler cfg code tokenEndpoint s).session.codeVerifier =
          s.codeVerifier) := by
  have hcode : (queryFields (qsStringify (tokenParams cfg code s))).lookup "code" =
      some ((code.map qsEscape).getD "") := by
    rw [queryFields_tokenParams]
    cases code <;> rfl
  have hver : (queryFields (qsStringify (tokenParams cfg code s))).lookup "code_verifier" =
      some ((s.codeVerifier.map qsEscape).getD "") := by
    rw [queryFields_tokenParams]
    cases s.codeVerifier <;> rfl
  have hverNone : s.codeVerifier = none →
      (queryFields (qsStringify (tokenParams cfg code s))).lookup "code_verifier" =
        some "" := by
    intro hv
    rw [hver, hv]
    rfl
  have hcodeNone : code = none →
      (queryFields (qsStringify (tokenParams cfg code s))).lookup "code" = some "" := by
    intro hc
    rw [hcode, hc]
    rfl
  refine ⟨qsStringify (tokenParams cfg code s),
    callbackHandler_outbound cfg code tokenEndpoint s, ?_, hcode, hver, ?_, hverNone,
    hcodeNone, ?_, ?_, ?_⟩
  · rw [queryFields_tokenParams]
    rfl
  · rcases h with hv | hc
    · exact Or.inl ⟨hv, hverNone hv⟩
    · exact Or.inr ⟨hc, hcodeNone hc⟩
  · intro hnet
    have hrej : axiosSettle (tokenEndpoint (tokenRequest cfg code s)) = none := by
      show axiosSettle (tokenEndpoint (.post (tokenUrl cfg)
        (qsStringify (tokenParams cfg code s))
        [("Content-Type", "application/x-www-form-urlencoded")])) = none
      rw [hnet]
      rfl
    rw [callbackHandler_rejected cfg code tokenEndpoint s hrej]
    exact ⟨rfl, rfl⟩
  · intro status data hans hst
    have hrej : axiosSettle (tokenEndpoint (tokenRequest cfg code s)) = none := by
      show axiosSettle (tokenEndpoint (.post (tokenUrl cfg)
        (qsStringify (tokenParams cfg code s))
        [("Content-Type", "application/x-www-form-urlencoded")])) = none
      rw [hans]
      exact axiosSettle_bad status data (by omega)
    rw [callbackHandler_rejected cfg code tokenEndpoint s hrej]
    exact ⟨rfl, rfl⟩
  · intro status data hans hst
    have hres : axiosSettle (tokenEndpoint (tokenRequest cfg code s)) = some data := by
      show axiosSettle (tokenEndpoint (.post (tokenUrl cfg)
        (qsStringify (tokenParams cfg code s))
        [("Content-Type", "application/x-www-form-urlencoded")])) = some data
      rw [hans]
      exact axiosSettle_ok status data hst
    rw [callbackHandler_resolved cfg code tokenEndpoint s data hres]
    exact ⟨rfl, rfl, rfl⟩

/-- Witness of the amended C4: a fresh session and a request without `code`;
the token request is still sent, with `code_verifier` and `code` both
empty. -/
theorem callback_without_precondition_witness :
    (Session.fresh.codeVerifier = none ∨ (none : Option String) = none) ∧
    ∃ body : String,
      (callbackHandler exampleConfig none (answerOk exampleTokenSet) Session.fresh).outbound =
        [.post (tokenUrl exampleConfig) body
          [("Content-Type", "application/x-www-form-urlencoded")]] ∧
      (queryFields body).lookup "code_verifier" = some "" ∧
      (queryFields body).lookup "code" = some "" :=
  ⟨Or.inl rfl,
    by
      obtain ⟨body, hout, _, _, _, _, hv, hc, _⟩ :=
        callback_without_precondition exampleConfig none (answerOk exampleTokenSet)
          Session.fresh (Or.inl rfl)
      exact ⟨body, hout, hv rfl, hc rfl⟩⟩

/-! ## C5: the token request carries the latest verifier -/

/-- C5: in every sequence of requests on one session in which a `GET /auth`
is followed, with no further `/auth` and no completed logout in between, by
`GET /auth/callback?code=c`, the callback sends one POST to
`{authority}/{tenantId}/oauth2/v2.0/token` (for the tenant id `tenantId` of
the configuration) with the form content type, whose body has exactly the
fields `client_id`, `scope`, `code=c`, `redirect_uri`,
`grant_type=authorization_code`, `client_secret`, `code_verifier`; the
`code_verifier` is the verifier that `/auth` stored, whose S256 challenge is
the `code_challenge` of that redirect; and the callback leaves
`session.codeVerifier` as it was. -/
theorem callback_sends_latest_verifier (cfg : Config) (tenantId : String) (s0 : Session)
    (earlier between : List Request) (randomBytes : List Nat) (c : String)
    (tokenEndpoint : Outbound → HttpOutcome)
    (htenant : cfg.tenantId = some tenantId)
    (hbytes : isBytes randomBytes) (hbetween : ∀ r ∈ between, r.keepsAttempt = true) :
    ∃ verifier body query : String,
      verifier = generateCodeVerifier randomBytes ∧
      (handle cfg (run cfg (handle cfg (run cfg s0 earlier) (.auth randomBytes)).session between)
        (.callback (some c) tokenEndpoint)).outbound =
        [.post (cfg.authority ++ "/" ++ tenantId ++ "/oauth2/v2.0/token")
          body [("Content-Type", "application/x-www-form-urlencoded")]] ∧
      body =
        "client_id=" ++ encodeStringified cfg.clientId ++
        "&scope=" ++ qsEscape cfg.scope ++
        "&code=" ++ qsEscape c ++
        "&redirect_uri=" ++ encodeStringified cfg.redirectUri ++
        "&grant_type=authorization_code&client_secret=" ++
        encodeStringified cfg.clientSecret ++
        "&code_verifier=" ++ verifier ∧
      queryFields body =
        [("client_id", encodeStringified cfg.clientId),
         ("scope", qsEscape cfg.scope),
         ("code", qsEscape c),
         ("redirect_uri", encodeStringified cfg.redirectUri),
         ("grant_type", "authorization_code"),
         ("client_secret", encodeStringified cfg.clientSecret),
         ("code_verifier", verifier)] ∧
      (handle cfg (run cfg s0 earlier) (.auth randomBytes)).response =
        .redirect (cfg.authority ++ "/" ++ tenantId ++ "/oauth2/v2.0/authorize?" ++ query) ∧
      (queryFields query).lookup "code_challenge" = some (generateCodeChallenge verifier) ∧
      (run cfg (handle cfg (run cfg s0 earlier) (.auth randomBytes)).session
        between).codeVerifier = some verifier ∧
      (handle cfg (run cfg (handle cfg (run cfg s0 earlier) (.auth randomBytes)).session between)
        (.callback (some c) tokenEndpoint)).session.codeVerifier = some verifier := by
  have hkept : (run cfg (handle cfg (run cfg s0 earlier) (.auth randomBytes)).session
      between).codeVerifier = some (generateCodeVerifier randomBytes) := by
    rw [run_keepsAttempt cfg between _ hbetween]
    rfl
  have hesc : encodeStringified (some (generateCodeVerifier randomBytes)) =
      generateCodeVerifier randomBytes := qsEscape_hex randomBytes hbytes
  have hurl : tokenUrl cfg = cfg.authority ++ "/" ++ tenantId ++ "/oauth2/v2.0/token" := by
    simp only [tokenUrl, htenant, templateString]
  refine ⟨generateCodeVerifier randomBytes,
    qsStringify (tokenParams cfg (some c)
      (run cfg (handle cfg (run cfg s0 earlier) (.auth randomBytes)).session between)),
    qsStringify (authParams cfg (generateCodeChallenge (generateCodeVerifier randomBytes))),
    rfl, ?_, ?_, ?_, ?_, ?_, hkept, ?_⟩
  · show (callbackHandler cfg (some c) tokenEndpoint _).outbound = _
    rw [callbackHandler_outbound, ← hurl]
    rfl
  · rw [qsStringify_tokenParams, hkept, hesc]
    rfl
  · rw [queryFields_tokenParams, hkept, hesc]
    rfl
  · simp only [handle, authHandler, htenant, templateString]
  · rw [queryFields_authParams, qsEscape_challenge]
    rfl
  · show (callbackHandler cfg (some c) tokenEndpoint _).session.codeVerifier = _
    rw [callbackHandler_codeVerifier, hkept]

/-- Witness of C5: after a completed logout, `/auth`, then the root page and
a profile view, then the callback; the POST goes to
`https://login.microsoft.com/common/oauth2/v2.0/token` and carries the
verifier of that `/auth`. -/
theorem callback_sends_latest_verifier_witness :
    exampleConfig.tenantId = some "common" ∧
    isBytes exampleBytes ∧
    (∀ r ∈ [Request.root, Request.profile (answerStatus 401)], r.keepsAttempt = true) ∧
    ∃ body : String,
      (handle exampleConfig
        (run exampleConfig
          (handle exampleConfig (run exampleConfig Session.fresh [Request.logout false])
            (.auth exampleBytes)).session
          [Request.root, Request.profile (answerStatus 401)])
        (.callback (some "VALIDCODE") (answerOk exampleTokenSet))).outbound =
        [.post (exampleConfig.authority ++ "/" ++ "common" ++ "/oauth2/v2.0/token")
          body [("Content-Type", "application/x-www-form-urlencoded")]] ∧
      (queryFields body).lookup "code_verifier" =
        some (generateCodeVerifier exampleBytes) :=
  ⟨rfl, by decide, by decide,
    by
      obtain ⟨v, body, _, hv, hout, _, hfields, _⟩ :=
        callback_sends_latest_verifier exampleConfig "common" Session.fresh
          [Request.logout false] [Request.root, Request.profile (answerStatus 401)]
          exampleBytes "VALIDCODE" (answerOk exampleTokenSet) rfl (by decide) (by decide)
      refine ⟨body, hout, ?_⟩
      rw [hfields, hv]
      rfl⟩

/-! ## C6, C7, C8: how the callback ends -/

/-- C6: for every `GET /auth/callback?code=c` on a session holding a
`codeVerifier`, if the token endpoint answers with a 2xx status and a JSON
body `b` that has an `access_token`, then afterwards the session's
`tokenSet` is the whole body `b`, its `access_token` is the provider's, the
verifier is still in the session, and the response redirects to
`/profile`. -/
theorem callback_success_stores_body (cfg : Config) (c verifier : String) (s : Session)
    (tokenEndpoint : Outbound → HttpOutcome) (status : Nat) (b token : JsVal)
    (hverifier : s.codeVerifier = some verifier)
    (hanswer : tokenEndpoint (tokenRequest cfg (some c) s) = .response status b)
    (hstatus : 200 ≤ status ∧ status < 300)
    (htoken : b.accessToken = some token) :
    (callbackHandler cfg (some c) tokenEndpoint s).session.tokenSet = some b ∧
    ((callbackHandler cfg (some c) tokenEndpoint s).session.tokenSet.bind
      JsVal.accessToken) = some token ∧
    (callbackHandler cfg (some c) tokenEndpoint s).session.codeVerifier = some verifier ∧
    (callbackHandler cfg (some c) tokenEndpoint s).response = .redirect "/profile" := by
  have hres : axiosSettle (tokenEndpoint (tokenRequest cfg (some c) s)) = some b := by
    rw [hanswer]
    exact axiosSettle_ok status b hstatus
  rw [callbackHandler_resolved cfg (some c) tokenEndpoint s b hres]
  exact ⟨rfl, htoken, hverifier, rfl⟩

/-- Witness of C6, Scenario B: the provider returns `access_token` `abc`. -/
theorem callback_success_stores_body_witness :
    (authHandler exampleConfig exampleBytes Session.fresh).session.codeVerifier =
      some (generateCodeVerifier exampleBytes) ∧
    (200 ≤ 200 ∧ 200 < 300) ∧
    exampleTokenSet.accessToken = some (.str "abc") ∧
    ((callbackHandler exampleConfig (some "VALIDCODE") (answerOk exampleTokenSet)
      (authHandler exampleConfig exampleBytes Session.fresh).session).session.tokenSet.bind
      JsVal.accessToken) = some (.str "abc") ∧
    (callbackHandler exampleConfig (some "VALIDCODE") (answerOk exampleTokenSet)
      (authHandler exampleConfig exampleBytes Session.fresh).session).response =
      .redirect "/profile" :=
  ⟨rfl, by decide, rfl,
    (callback_success_stores_body exampleConfig "VALIDCODE"
      (generateCodeVerifier exampleBytes)
      (authHandler exampleConfig exampleBytes Session.fresh).session
      (answerOk exampleTokenSet) 200 exampleTokenSet (.str "abc") rfl rfl (by decide) rfl).2.1,
    (callback_success_stores_body exampleConfig "VALIDCODE"
      (generateCodeVerifier exampleBytes)
      (authHandler exampleConfig exampleBytes Session.fresh).session
      (answerOk exampleTokenSet) 200 exampleTokenSet (.str "abc") rfl rfl (by decide) rfl).2.2.2⟩

/-- C7: for every `GET /auth/callback` whose provider call fails with a
network error or a status outside 2xx, the response redirects to `/` and the
session is exactly what it was: `tokenSet` (unset or set) and `codeVerifier`
are unchanged. -/
theorem callback_failure_keeps_session (cfg : Config) (code : Option String)
    (tokenEndpoint : Outbound → HttpOutcome) (s : Session)
    (hfail : tokenEndpoint (tokenRequest cfg code s) = .networkError ∨
      ∃ status data, tokenEndpoint (tokenRequest cfg code s) = .response status data ∧
        (status < 200 ∨ 300 ≤ status)) :
    (callbackHandler cfg code tokenEndpoint s).response = .redirect "/" ∧
    (callbackHandler cfg code tokenEndpoint s).session = s ∧
    (callbackHandler cfg code tokenEndpoint s).session.tokenSet = s.tokenSet ∧
    (callbackHandler cfg code tokenEndpoint s).session.codeVerifier = s.codeVerifier := by
  have hrej : axiosSettle (tokenEndpoint (tokenRequest cfg code s)) = none := by
    rcases hfail with h | ⟨status, data, h, hst⟩
    · rw [h]
      rfl
    · rw [h]
      exact axiosSettle_bad status data (by omega)
  rw [callbackHandler_rejected cfg code tokenEndpoint s hrej]
  exact ⟨rfl, rfl, rfl, rfl⟩

/-- Witness of C7, Scenario C: the provider answers 400. -/
theorem callback_failure_keeps_session_witness :
    (answerStatus 400 (tokenRequest exampleConfig (some "BADCODE") Session.fresh) =
        .networkError ∨
      ∃ status data,
        answerStatus 400 (tokenRequest exampleConfig (some "BADCODE") Session.fresh) =
          .response status data ∧ (status < 200 ∨ 300 ≤ status)) ∧
    (callbackHandler exampleConfig (some "BADCODE") (answerStatus 400)
      Session.fresh).response = .redirect "/" ∧
    (callbackHandler exampleConfig (some "BADCODE") (answerStatus 400)
      Session.fresh).session.tokenSet = none :=
  ⟨Or.inr ⟨400, _, rfl, Or.inr (by decide)⟩,
    (callback_failure_keeps_session exampleConfig (some "BADCODE") (answerStatus 400)
      Session.fresh (Or.inr ⟨400, _, rfl, Or.inr (by decide)⟩)).1,
    (callback_failure_keeps_session exampleConfig (some "BADCODE") (answerStatus 400)
      Session.fresh (Or.inr ⟨400, _, rfl, Or.inr (by decide)⟩)).2.2.1⟩

/-- C8, the claim as stated fails: a provider answering 200 with a body that
is not JSON makes the callback store that text as `tokenSet` and redirect to
`/profile`; the stored `tokenSet` has no `access_token`. -/
theorem callback_malformed_body_counterexample :
    (JsVal.str "<html>busy</html>").hasAccessToken = false ∧
    (callbackHandler exampleConfig (some "VALIDCODE") (answerOk (.str "<html>busy</html>"))
      (authHandler exampleConfig exampleBytes Session.fresh).session).response =
      .redirect "/profile" ∧
    (callbackHandler exampleConfig (some "VALIDCODE") (answerOk (.str "<html>busy</html>"))
      (authHandler exampleConfig exampleBytes Session.fresh).session).response ≠
      .redirect "/" ∧
    (callbackHandler exampleConfig (some "VALIDCODE") (answerOk (.str "<html>busy</html>"))
      (authHandler exampleConfig exampleBytes Session.fresh).session).session.tokenSet =
      some (.str "<html>busy</html>") := by
  refine ⟨rfl, rfl, ?_, rfl⟩
  decide

/-- C8 as amended: for every `GET /auth/callback` whose provider answer is
2xx, the handler does not look at the body: also a malformed one (not a JSON
object with `access_token`) is stored as `tokenSet` and followed by a
redirect to `/profile`; so the stored `tokenSet` has an `access_token`
exactly when the provider's 2xx body had one. -/
theorem callback_stores_any_2xx_body (cfg : Config) (code : Option String)
    (tokenEndpoint : Outbound → HttpOutcome) (s : Session) (status : Nat) (data : JsVal)
    (hanswer : tokenEndpoint (tokenRequest cfg code s) = .response status data)
    (hstatus : 200 ≤ status ∧ status < 300) :
    (callbackHandler cfg code tokenEndpoint s).session.tokenSet = some data ∧
    (callbackHandler cfg code tokenEndpoint s).response = .redirect "/profile" ∧
    (callbackHandler cfg code tokenEndpoint s).session.tokenSet.map JsVal.hasAccessToken =
      some data.hasAccessToken := by
  have hres : axiosSettle (tokenEndpoint (tokenRequest cfg code s)) = some data := by
    rw [hanswer]
    exact axiosSettle_ok status data hstatus
  rw [callbackHandler_resolved cfg code tokenEndpoint s data hres]
  exact ⟨rfl, rfl, rfl⟩

/-- Witness of the amended C8: a 200 answer whose body is an object without
`access_token`. -/
theorem callback_stores_any_2xx_body_witness :
    answerOk (.obj [("token_type", .str "Bearer")])
      (tokenRequest exampleConfig (some "VALIDCODE") Session.fresh) =
      .response 200 (.obj [("token_type", .str "Bearer")]) ∧
    (200 ≤ 200 ∧ 200 < 300) ∧
    (callbackHandler exampleConfig (some "VALIDCODE")
      (answerOk (.obj [("token_type", .str "Bearer")])) Session.fresh).session.tokenSet.map
      JsVal.hasAccessToken = some false :=
  ⟨rfl, by decide,
    (callback_stores_any_2xx_body exampleConfig (some "VALIDCODE")
      (answerOk (.obj [("token_type", .str "Bearer")])) Session.fresh 200
      (.obj [("token_type", .str "Bearer")]) rfl (by decide)).2.2⟩

/-! ## C9, C10: the profile page and the failure paths -/

/-- C9: for every session with no `tokenSet` (whatever its `codeVerifier`),
`GET /profile` redirects to `/`, makes no outbound call and leaves the
session alone; for every session, `/profile` makes either no call or exactly
one, a GET of `https://graph.microsoft.com/v1.0/me` with an `Authorization`
header; and for a session whose `tokenSet` is an object with the string
`access_token` `token`, that call is made and its header is `Bearer `
followed by `token`. -/
theorem profile_guard_and_bearer_call (profileEndpoint : Outbound → HttpOutcome)
    (s : Session) (fields : List (String × JsVal)) (token : String)
    (htokenSet : s.tokenSet = some (.obj fields))
    (htoken : fields.lookup "access_token" = some (.str token)) :
    (∀ codeVerifier : Option String,
      (profileHandler profileEndpoint { codeVerifier := codeVerifier, tokenSet := none }).response =
        .redirect "/" ∧
      (profileHandler profileEndpoint { codeVerifier := codeVerifier, tokenSet := none }).outbound =
        [] ∧
      (profileHandler profileEndpoint { codeVerifier := codeVerifier, tokenSet := none }).session =
        { codeVerifier := codeVerifier, tokenSet := none }) ∧
    (∀ other : Session,
      (profileHandler profileEndpoint other).outbound = [] ∨
      ∃ tokenSet, other.tokenSet = some tokenSet ∧
        (profileHandler profileEndpoint other).outbound =
          [.get "https://graph.microsoft.com/v1.0/me"
            [("Authorization", "Bearer " ++ templateValue tokenSet.accessToken)]]) ∧
    (profileHandler profileEndpoint s).outbound =
      [.get "https://graph.microsoft.com/v1.0/me" [("Authorization", "Bearer " ++ token)]] := by
  refine ⟨fun _ => ⟨rfl, rfl, rfl⟩, ?_, ?_⟩
  · intro other
    rcases profileHandler_outbound profileEndpoint other with h | ⟨tokenSet, hts, _, h⟩
    · exact Or.inl h
    · exact Or.inr ⟨tokenSet, hts, h⟩
  · rw [profileHandler_outbound_truthy profileEndpoint s (.obj fields) htokenSet rfl]
    simp only [profileRequest, JsVal.accessToken, htoken, templateValue, JsVal.toText]

/-- Witness of C9: the session of Scenario B, whose `tokenSet` is the object
with `access_token` `abc`; the header is `Bearer abc`. -/
theorem profile_guard_and_bearer_call_witness :
    (Session.mk none (some exampleTokenSet)).tokenSet =
      some (.obj [("access_token", .str "abc")]) ∧
    [("access_token", JsVal.str "abc")].lookup "access_token" = some (.str "abc") ∧
    (profileHandler (answerStatus 401) (Session.mk none (some exampleTokenSet))).outbound =
      [.get "https://graph.microsoft.com/v1.0/me" [("Authorization", "Bearer abc")]] :=
  ⟨rfl, rfl,
    (profile_guard_and_bearer_call (answerStatus 401) (Session.mk none (some exampleTokenSet))
      [("access_token", .str "abc")] "abc" rfl rfl).2.2⟩

/-- C10: every failure path ends in a redirect to `/`: for every session, a
`GET /profile` whose fetch fails redirects to `/`, leaves the session as it
was and makes no call but its one GET (no token refresh); a callback whose
token call fails redirects to `/`; `GET /logout` redirects to `/` whether
the destruction succeeds or reports an error; and after a logout whose
destruction succeeded, `GET /profile` answers as for a fresh session, with a
redirect to `/` and no call. -/
theorem failure_paths_redirect_to_root (cfg : Config) (s : Session) (code : Option String)
    (failing profileEndpoint : Outbound → HttpOutcome) (destroyError : Bool)
    (hfail : ∀ call, axiosSettle (failing call) = none) :
    (profileHandler failing s).response = .redirect "/" ∧
    (profileHandler failing s).session = s ∧
    ((profileHandler failing s).outbound = [] ∨
      ∃ tokenSet, s.tokenSet = some tokenSet ∧
        (profileHandler failing s).outbound = [profileRequest tokenSet]) ∧
    (callbackHandler cfg code failing s).response = .redirect "/" ∧
    (logoutHandler destroyError s).response = .redirect "/" ∧
    (logoutHandler destroyError s).outbound = [] ∧
    profileHandler profileEndpoint (logoutHandler false s).session =
      profileHandler profileEndpoint Session.fresh ∧
    (profileHandler profileEndpoint (logoutHandler false s).session).response =
      .redirect "/" ∧
    (profileHandler profileEndpoint (logoutHandler false s).session).outbound = [] := by
  refine ⟨profileHandler_rejected failing s hfail, profileHandler_session failing s, ?_, ?_,
    rfl, rfl, rfl, rfl, rfl⟩
  · rcases profileHandler_outbound failing s with h | ⟨tokenSet, hts, _, h⟩
    · exact Or.inl h
    · exact Or.inr ⟨tokenSet, hts, h⟩
  · rw [callbackHandler_rejected cfg code failing s (hfail _)]

/-- Witness of C10: a session with a token set and a provider answering
401. -/
theorem failure_paths_redirect_to_root_witness :
    (∀ call, axiosSettle (answerStatus 401 call) = none) ∧
    (profileHandler (answerStatus 401)
      { codeVerifier := none, tokenSet := some exampleTokenSet }).response = .redirect "/" ∧
    (profileHandler (answerOk exampleTokenSet)
      (logoutHandler false
        { codeVerifier := none, tokenSet := some exampleTokenSet }).session).response =
      .redirect "/" :=
  ⟨fun _ => rfl,
    (failure_paths_redirect_to_root exampleConfig
      { codeVerifier := none, tokenSet := some exampleTokenSet } none (answerStatus 401)
      (answerOk exampleTokenSet) true (fun _ => rfl)).1,
    (failure_paths_redirect_to_root exampleConfig
      { codeVerifier := none, tokenSet := some exampleTokenSet } none (answerStatus 401)
      (answerOk exampleTokenSet) true (fun _ => rfl)).2.2.2.2.2.2.2.1⟩

end EntraOAuth
